import Mathlib

/-!
# EZO driver factory

A shallow embedding of `ezo/factory.go` (package `ezo`): the parameter schema, the
validator `ValidateParameters` and the constructor `NewDriver` of the Atlas Scientific
EZO driver factory, followed by the properties proved about them.

Conventions of the embedding:

* a Go `map[string]T` is an association list read with first-match lookup and written
  with replace-or-append; the empty list is the empty map;
* a Go `interface{}` value is a `GoValue`;
* Go `int` follows the 64-bit targets (`int` and `int64` coincide); it is carried as an
  `Int`, and the two narrowing or possibly overflowing operations of the file,
  `byte(address)` and `time.Duration(delay) * time.Millisecond`, reduce explicitly;
* a call either returns its results or panics; `NewDriver` returns a pair
  `(hal.Driver, error)` in which `none` plays the role of `nil`;
* what the file uses from outside itself (`hal.ConvertToInt`, `hal.ToErrorString`, the
  package constant `_ezoName`) is a parameter, gathered in `Externals`.
-/

namespace Ezo

/-! ## Go values and `fmt.Sprint` -/

/-- Dynamic value held by a Go `interface{}`: the nil interface, a native `int`, a
`string`, or a value of any other dynamic type, carried with its default `%v`
rendering. -/
inductive GoValue where
  | nil
  | int (i : Int)
  | str (s : String)
  | other (printed : String)
  deriving DecidableEq, Repr

namespace GoValue

/-- Default (`%v`) rendering of one operand, as `fmt.Sprint` prints it. -/
def format : GoValue → String
  | .nil => "<nil>"
  | .int i => toString i
  | .str s => s
  | .other printed => printed

/-- Whether the operand is of string kind (what `fmt.Sprint` tests before it inserts a
space between two operands). -/
def isString : GoValue → Bool
  | .str _ => true
  | _ => false

end GoValue

/-- Body of `fmt.Sprint`: operands are concatenated in their default format, and a
space is written before an operand that has a predecessor when neither of the two is a
string. `prevString` is true at the first operand, which never gets a space. -/
def sprintAux (prevString : Bool) : List GoValue → String
  | [] => ""
  | a :: rest =>
    (if !a.isString && !prevString then " " else "") ++ a.format ++ sprintAux a.isString rest

/-- Go `fmt.Sprint(operands...)`. -/
def Sprint (operands : List GoValue) : String :=
  sprintAux true operands

/-! ## Go maps -/

/-- Go `map[string]T` as an association list. -/
structure GoMap (α : Type) where
  entries : List (String × α)
  deriving DecidableEq, Repr

namespace GoMap

variable {α : Type}

/-- Go `make(map[string]T)`. -/
def empty : GoMap α := ⟨[]⟩

/-- Go `v, ok := m[k]`: `none` when the key is absent. -/
def lookup (m : GoMap α) (k : String) : Option α :=
  (m.entries.find? (fun e => e.1 == k)).map (fun e => e.2)

/-- Go `m[k]` on a `map[string][]string`: the zero value (the nil slice) when the key
is absent. -/
def get (m : GoMap (List String)) (k : String) : List String :=
  (m.lookup k).getD []

/-- Replace the value of the first entry with key `k`, or append a new entry. -/
def setEntries (k : String) (v : α) : List (String × α) → List (String × α)
  | [] => [(k, v)]
  | e :: rest => if e.1 == k then (k, v) :: rest else e :: setEntries k v rest

/-- Go `m[k] = v`. -/
def set (m : GoMap α) (k : String) (v : α) : GoMap α :=
  ⟨setEntries k v m.entries⟩

/-- Go `len(m)` (on a map built by `set` from `empty`, whose keys are distinct). -/
def len (m : GoMap α) : Nat :=
  m.entries.length

/-- Keys of the map, in entry order. -/
def keys (m : GoMap α) : List String :=
  m.entries.map (fun e => e.1)

end GoMap

/-! ## Types of package `hal` and of the driver -/

/-- The `hal.Capability` tags. -/
inductive Capability where
  | DigitalInput
  | DigitalOutput
  | PWM
  | AnalogInput
  deriving DecidableEq, Repr

/-- The `hal.ConfigParameterType` tags. -/
inductive ConfigParameterType where
  | Text
  | Integer
  | Decimal
  | Boolean
  deriving DecidableEq, Repr

/-- The record `hal.Metadata`. -/
structure Metadata where
  Name : String
  Description : String
  Capabilities : List Capability
  deriving DecidableEq, Repr

/-- The record `hal.ConfigParameter`; `Default` is an `interface{}`. The Go field
`Type` is spelt `Type_` here. -/
structure ConfigParameter where
  Name : String
  Type_ : ConfigParameterType
  Order : Int
  Default : GoValue
  deriving DecidableEq, Repr

/-- What `factory.go` uses from outside itself. -/
structure Externals where
  /-- The package constant `_ezoName`, declared in another file of the package. -/
  _ezoName : String
  /-- The function `hal.ConvertToInt`: the coerced integer (a fallback value on failure)
  and the success flag. -/
  ConvertToInt : GoValue → Int × Bool
  /-- The function `hal.ToErrorString`. -/
  ToErrorString : GoMap (List String) → String

/-- The struct `factory`. -/
structure factory where
  meta : Metadata
  parameters : List ConfigParameter
  deriving DecidableEq, Repr

def addressParam : String := "Address"

def delayParam : String := "Delay"

/-- Value of `ezoFactory` once `once.Do` has run the initialiser in `Factory()`. -/
def Factory (x : Externals) : factory :=
  { meta :=
      { Name := x._ezoName
        Description := "Atlas Scientific EZO board for pH sensor"
        Capabilities := [Capability.AnalogInput] }
    parameters :=
      [ { Name := addressParam, Type_ := ConfigParameterType.Integer, Order := 0,
          Default := GoValue.int 68 },
        { Name := delayParam, Type_ := ConfigParameterType.Integer, Order := 1,
          Default := GoValue.int 1600 } ] }

namespace factory

/-- Method `(f *factory) Metadata()`. -/
def Metadata (f : factory) : Ezo.Metadata :=
  f.meta

/-- Method `(f *factory) GetParameters()`. -/
def GetParameters (f : factory) : List ConfigParameter :=
  f.parameters

end factory

/-! ## The driver record and the hardware resource -/

/-- Handle of an `i2c.Bus` implementation. -/
structure Bus where
  handle : Nat
  deriving DecidableEq, Repr

/-- The struct `AtlasEZO`, with the four fields that `NewDriver` fills in: `addr` is a
`byte` (held as its value in `0..255`), `delay` a `time.Duration` (an `int64` count of
nanoseconds). -/
structure AtlasEZO where
  addr : Nat
  bus : Bus
  delay : Int
  meta : Metadata
  deriving DecidableEq, Repr

/-- Dynamic value of the `hardwareResources interface{}` argument: the nil interface, a
value implementing `i2c.Bus`, or a value of a type that does not implement it. -/
inductive HardwareResource where
  | nil
  | bus (b : Bus)
  | other (typeName : String)
  deriving DecidableEq, Repr

/-- Value of Go type `error`; `errors.New` builds one from its text. -/
structure GoError where
  text : String
  deriving DecidableEq, Repr

/-- How a call ends: it returns its results, or it panics. -/
inductive Outcome (α : Type) where
  | returned (results : α)
  | panicked (reason : String)
  deriving DecidableEq, Repr

/-! ## Machine arithmetic -/

/-- Go conversion `byte(n)` of an `int`: the low 8 bits. -/
def toByte (n : Int) : Nat :=
  (n % 256).toNat

/-- Two's-complement reduction of an integer to `int64`. -/
def wrapInt64 (n : Int) : Int :=
  (n + 2 ^ 63) % 2 ^ 64 - 2 ^ 63

/-- The constant `time.Millisecond`, in nanoseconds. -/
def Millisecond : Int := 1000000

/-- Go `time.Duration(delay) * time.Millisecond`: an `int64` product. -/
def durationOfMillis (delay : Int) : Int :=
  wrapInt64 (wrapInt64 delay * Millisecond)

/-! ## `ValidateParameters` and `NewDriver` -/

namespace factory

/-- Method `(f *factory) ValidateParameters(parameters)`: the validity flag and the
failures map. -/
def ValidateParameters (x : Externals) (_f : factory) (parameters : GoMap GoValue) :
    Bool × GoMap (List String) :=
  let failures : GoMap (List String) := GoMap.empty
  let failures :=
    match parameters.lookup addressParam with
    | some address =>
      let r := x.ConvertToInt address
      let failures :=
        if !r.2 then
          failures.set addressParam (failures.get addressParam ++
            [Sprint [.str addressParam, .str " is not an integer. ", address,
              .str " was received."]])
        else failures
      if r.1 < 0 || r.1 > 255 then
        failures.set addressParam (failures.get addressParam ++
          [Sprint [.str addressParam,
            .str " is out of range. It should be between 0 and 255, but ", address,
            .str " was received."]])
      else failures
    | none =>
      failures.set addressParam (failures.get addressParam ++
        [Sprint [.str addressParam, .str " is not a required parameter, but was not found."]])
  let failures :=
    match parameters.lookup delayParam with
    | some delay =>
      let r := x.ConvertToInt delay
      let failures :=
        if !r.2 then
          failures.set delayParam (failures.get delayParam ++
            [Sprint [.str delayParam, .str " is not an integer. ", delay,
              .str " was received."]])
        else failures
      if r.1 < 0 then
        failures.set delayParam (failures.get delayParam ++
          [Sprint [.str delayParam, .str " must be positive. ", delay,
            .str " was received."]])
      else failures
    | none => failures
  (failures.len == 0, failures)

/-- Method `(f *factory) NewDriver(parameters, hardwareResources)`. The index expression
`parameters[addressParam]` yields the nil interface when the key is absent; the type
assertion `hardwareResources.(i2c.Bus)` panics on anything that is not a bus. -/
def NewDriver (x : Externals) (f : factory) (parameters : GoMap GoValue)
    (hardwareResources : HardwareResource) : Outcome (Option AtlasEZO × Option GoError) :=
  let vr := f.ValidateParameters x parameters
  if !vr.1 then
    .returned (none, some ⟨x.ToErrorString vr.2⟩)
  else
    let address := (x.ConvertToInt ((parameters.lookup addressParam).getD .nil)).1
    let delay : Int :=
      match parameters.lookup delayParam with
      | some d => (x.ConvertToInt d).1
      | none => 1600
    match hardwareResources with
    | .bus b =>
      .returned
        (some
          { addr := toByte address
            bus := b
            delay := durationOfMillis delay
            meta :=
              { Name := x._ezoName
                Description := "Atlas Scientific EZO board for pH sensor"
                Capabilities := [Capability.AnalogInput] } },
         none)
    | .nil => .panicked "interface conversion: interface is nil, not i2c.Bus"
    | .other typeName =>
      .panicked ("interface conversion: " ++ typeName ++ " is not i2c.Bus")

end factory

/-! ## A concrete instance of the externals, for evaluation on examples -/

/-- Value of a decimal digit character. -/
def digitValue (c : Char) : Option Nat :=
  if c.isDigit then some (c.toNat - 48) else none

/-- Read a non-empty run of decimal digits, most significant first. -/
def parseDigits : List Char → Nat → Option Nat
  | [], acc => some acc
  | c :: rest, acc =>
    match digitValue c with
    | some d => parseDigits rest (acc * 10 + d)
    | none => none

/-- Decimal integer text (optional sign, then digits), as `strconv.Atoi` reads it. -/
def parseInt (s : String) : Option Int :=
  match s.data with
  | [] => none
  | '-' :: rest => if rest.isEmpty then none else (parseDigits rest 0).map (fun n => - (n : Int))
  | '+' :: rest => if rest.isEmpty then none else (parseDigits rest 0).map (fun n => (n : Int))
  | cs => (parseDigits cs 0).map (fun n => (n : Int))

/-- A coercion of the kind `hal.ConvertToInt` implements, on the values used in the
examples: a native integer is itself, a decimal integer string is parsed, anything else
fails with the fallback value 0. -/
def sampleConvertToInt : GoValue → Int × Bool
  | .int i => (i, true)
  | .str s =>
    match parseInt s with
    | some i => (i, true)
    | none => (0, false)
  | _ => (0, false)

/-- A rendering of the kind `hal.ToErrorString` implements: every entry as its key, a
colon and its messages, the messages separated by commas and the entries by semicolons,
in entry order. -/
def sampleToErrorString (failures : GoMap (List String)) : String :=
  "; ".intercalate (failures.entries.map (fun e => e.1 ++ ": " ++ ", ".intercalate e.2))

/-- The externals used for the concrete examples. -/
def sampleExternals : Externals :=
  { _ezoName := "ezo"
    ConvertToInt := sampleConvertToInt
    ToErrorString := sampleToErrorString }

/-- A second coercion for the examples, whose fallback value on failure is `-1` instead
of `0`: a native integer is itself, anything else fails. -/
def negativeFallbackConvertToInt : GoValue → Int × Bool
  | .int i => (i, true)
  | _ => (-1, false)

/-- The example externals with the coercion whose fallback value is `-1`. -/
def negativeFallbackExternals : Externals :=
  { _ezoName := "ezo"
    ConvertToInt := negativeFallbackConvertToInt
    ToErrorString := sampleToErrorString }

/-- Build a raw configuration from its entries. -/
def config (entries : List (String × GoValue)) : GoMap GoValue :=
  ⟨entries⟩

/-! ## Message lists, for the characterisation of `ValidateParameters` -/

/-- Messages that the `Address` block of `ValidateParameters` appends, in order. -/
def addressMessages (x : Externals) (parameters : GoMap GoValue) : List String :=
  match parameters.lookup addressParam with
  | some address =>
    (if (x.ConvertToInt address).2 then []
      else ["Address is not an integer. " ++ address.format ++ " was received."]) ++
    (if (x.ConvertToInt address).1 < 0 ∨ 255 < (x.ConvertToInt address).1 then
        ["Address is out of range. It should be between 0 and 255, but " ++ address.format ++
          " was received."]
      else [])
  | none => ["Address is not a required parameter, but was not found."]

/-- Messages that the `Delay` block of `ValidateParameters` appends, in order. -/
def delayMessages (x : Externals) (parameters : GoMap GoValue) : List String :=
  match parameters.lookup delayParam with
  | some delay =>
    (if (x.ConvertToInt delay).2 then []
      else ["Delay is not an integer. " ++ delay.format ++ " was received."]) ++
    (if (x.ConvertToInt delay).1 < 0 then
        ["Delay must be positive. " ++ delay.format ++ " was received."]
      else [])
  | none => []

/-- The map entry a message list ends up in: none for the empty list. -/
def entryFor (k : String) (msgs : List String) : List (String × List String) :=
  if msgs = [] then [] else [(k, msgs)]

/-! ## Auxiliary lemmas -/

theorem Sprint_two (a b : String) : Sprint [.str a, .str b] = a ++ b := by
  simp [Sprint, sprintAux, GoValue.isString, GoValue.format]

theorem Sprint_around (a b c : String) (v : GoValue) :
    Sprint [.str a, .str b, v, .str c] = a ++ b ++ v.format ++ c := by
  simp [Sprint, sprintAux, GoValue.isString, GoValue.format, String.append_assoc]

theorem ValidateParameters_eq (x : Externals) (f : factory) (parameters : GoMap GoValue) :
    f.ValidateParameters x parameters =
      (decide (addressMessages x parameters = [] ∧ delayMessages x parameters = []),
        ⟨entryFor addressParam (addressMessages x parameters) ++
          entryFor delayParam (delayMessages x parameters)⟩) := by
  unfold factory.ValidateParameters addressMessages delayMessages
  rcases parameters.lookup addressParam with _ | a <;>
    rcases parameters.lookup delayParam with _ | d
  · simp [Sprint_two, entryFor, GoMap.set, GoMap.setEntries, GoMap.get, GoMap.lookup,
      GoMap.empty, GoMap.len, addressParam]
  · dsimp only
    generalize x.ConvertToInt d = rd
    rcases rd with ⟨dv, _ | _⟩ <;> by_cases hdv : dv < 0 <;>
      simp [Sprint_two, Sprint_around, entryFor, GoMap.set, GoMap.setEntries, GoMap.get,
        GoMap.lookup, GoMap.empty, GoMap.len, addressParam, delayParam, hdv]
  · dsimp only
    generalize x.ConvertToInt a = ra
    rcases ra with ⟨av, _ | _⟩ <;> by_cases hlo : av < 0 <;>
      by_cases hhi : 255 < av <;>
      simp [Sprint_two, Sprint_around, entryFor, GoMap.set, GoMap.setEntries, GoMap.get,
        GoMap.lookup, GoMap.empty, GoMap.len, addressParam, delayParam, hlo, hhi]
  · dsimp only
    generalize x.ConvertToInt a = ra
    generalize x.ConvertToInt d = rd
    rcases ra with ⟨av, _ | _⟩ <;> rcases rd with ⟨dv, _ | _⟩ <;>
      by_cases hlo : av < 0 <;> by_cases hhi : 255 < av <;> by_cases hdv : dv < 0 <;>
      simp [Sprint_two, Sprint_around, entryFor, GoMap.set, GoMap.setEntries, GoMap.get,
        GoMap.lookup, GoMap.empty, GoMap.len, addressParam, delayParam, hlo, hhi, hdv]

theorem GoMap.mem_of_lookup {α : Type} (m : GoMap α) (k : String) (v : α)
    (h : m.lookup k = some v) : (k, v) ∈ m.entries := by
  unfold GoMap.lookup at h
  rcases Option.map_eq_some'.mp h with ⟨e, he, hv⟩
  have hk := List.find?_some he
  have hmem := List.mem_of_find?_eq_some he
  have hk2 : e.1 = k := by simpa using hk
  rw [← hk2, ← hv]
  exact hmem

theorem failures_lookup_address (x : Externals) (f : factory) (parameters : GoMap GoValue) :
    (f.ValidateParameters x parameters).2.lookup "Address" =
      if addressMessages x parameters = [] then none
      else some (addressMessages x parameters) := by
  rw [ValidateParameters_eq]
  by_cases hA : addressMessages x parameters = [] <;>
    by_cases hD : delayMessages x parameters = [] <;>
    simp [GoMap.lookup, entryFor, hA, hD, addressParam, delayParam]

theorem failures_lookup_delay (x : Externals) (f : factory) (parameters : GoMap GoValue) :
    (f.ValidateParameters x parameters).2.lookup "Delay" =
      if delayMessages x parameters = [] then none
      else some (delayMessages x parameters) := by
  rw [ValidateParameters_eq]
  by_cases hA : addressMessages x parameters = [] <;>
    by_cases hD : delayMessages x parameters = [] <;>
    simp [GoMap.lookup, entryFor, hA, hD, addressParam, delayParam]

theorem valid_iff_no_messages (x : Externals) (f : factory) (parameters : GoMap GoValue) :
    (f.ValidateParameters x parameters).1 = true ↔
      addressMessages x parameters = [] ∧ delayMessages x parameters = [] := by
  rw [ValidateParameters_eq]
  simp

theorem addressMessages_of_absent (x : Externals) (parameters : GoMap GoValue)
    (hA : parameters.lookup "Address" = none) :
    addressMessages x parameters =
      ["Address is not a required parameter, but was not found."] := by
  simp [addressMessages, addressParam, hA]

theorem addressMessages_of_present (x : Externals) (parameters : GoMap GoValue) (a : GoValue)
    (hA : parameters.lookup "Address" = some a) :
    addressMessages x parameters =
      (if (x.ConvertToInt a).2 then []
        else ["Address is not an integer. " ++ a.format ++ " was received."]) ++
      (if (x.ConvertToInt a).1 < 0 ∨ 255 < (x.ConvertToInt a).1 then
          ["Address is out of range. It should be between 0 and 255, but " ++ a.format ++
            " was received."]
        else []) := by
  simp [addressMessages, addressParam, hA]

theorem delayMessages_of_absent (x : Externals) (parameters : GoMap GoValue)
    (hD : parameters.lookup "Delay" = none) :
    delayMessages x parameters = [] := by
  simp [delayMessages, delayParam, hD]

theorem delayMessages_of_present (x : Externals) (parameters : GoMap GoValue) (d : GoValue)
    (hD : parameters.lookup "Delay" = some d) :
    delayMessages x parameters =
      (if (x.ConvertToInt d).2 then []
        else ["Delay is not an integer. " ++ d.format ++ " was received."]) ++
      (if (x.ConvertToInt d).1 < 0 then
          ["Delay must be positive. " ++ d.format ++ " was received."]
        else []) := by
  simp [delayMessages, delayParam, hD]

theorem NewDriver_of_invalid (x : Externals) (f : factory) (parameters : GoMap GoValue)
    (hw : HardwareResource) (hv : (f.ValidateParameters x parameters).1 = false) :
    f.NewDriver x parameters hw =
      .returned (none, some ⟨x.ToErrorString (f.ValidateParameters x parameters).2⟩) := by
  simp [factory.NewDriver, hv]

theorem NewDriver_of_valid_bus (x : Externals) (f : factory) (parameters : GoMap GoValue)
    (b : Bus) (hv : (f.ValidateParameters x parameters).1 = true) :
    f.NewDriver x parameters (.bus b) =
      .returned
        (some
          { addr := toByte (x.ConvertToInt ((parameters.lookup "Address").getD .nil)).1
            bus := b
            delay := durationOfMillis
              (match parameters.lookup "Delay" with
                | some d => (x.ConvertToInt d).1
                | none => 1600)
            meta :=
              { Name := x._ezoName
                Description := "Atlas Scientific EZO board for pH sensor"
                Capabilities := [Capability.AnalogInput] } },
         none) := by
  simp [factory.NewDriver, hv, addressParam, delayParam]

/-- What a passing validation says about the two entries. -/
theorem entries_of_valid (x : Externals) (f : factory) (parameters : GoMap GoValue)
    (hv : (f.ValidateParameters x parameters).1 = true) :
    (∃ a, parameters.lookup "Address" = some a ∧ (x.ConvertToInt a).2 = true ∧
        0 ≤ (x.ConvertToInt a).1 ∧ (x.ConvertToInt a).1 ≤ 255) ∧
      (∀ d, parameters.lookup "Delay" = some d →
        (x.ConvertToInt d).2 = true ∧ 0 ≤ (x.ConvertToInt d).1) := by
  obtain ⟨hA, hD⟩ := (valid_iff_no_messages x f parameters).mp hv
  constructor
  · rcases hl : parameters.lookup "Address" with _ | a
    · rw [addressMessages_of_absent x parameters hl] at hA
      exact absurd hA (by simp)
    · rw [addressMessages_of_present x parameters a hl] at hA
      refine ⟨a, rfl, ?_⟩
      rcases hc : x.ConvertToInt a with ⟨v, ok⟩
      rw [hc] at hA
      cases ok <;> simp at hA
      simp
      omega
  · intro d hl
    rw [delayMessages_of_present x parameters d hl] at hD
    rcases hc : x.ConvertToInt d with ⟨v, ok⟩
    rw [hc] at hD
    cases ok <;> simp at hD
    simp
    omega

theorem wrapInt64_of_range (n : Int) (hlo : -9223372036854775808 ≤ n)
    (hhi : n ≤ 9223372036854775807) : wrapInt64 n = n := by
  unfold wrapInt64
  have h63 : (2 : Int) ^ 63 = 9223372036854775808 := by norm_num
  have h64 : (2 : Int) ^ 64 = 18446744073709551616 := by norm_num
  rw [h63, h64, Int.emod_eq_of_lt (by omega) (by omega)]
  omega

theorem durationOfMillis_of_bounded (d : Int) (hlo : 0 ≤ d) (hhi : d ≤ 9223372036854) :
    durationOfMillis d = d * 1000000 := by
  unfold durationOfMillis Millisecond
  rw [wrapInt64_of_range d (by omega) (by omega),
    wrapInt64_of_range (d * 1000000) (by omega) (by omega)]

theorem addressMessages_congr (x : Externals) (p q : GoMap GoValue)
    (h : p.lookup "Address" = q.lookup "Address") :
    addressMessages x p = addressMessages x q := by
  unfold addressMessages
  rw [show addressParam = "Address" from rfl, h]

theorem delayMessages_congr (x : Externals) (p q : GoMap GoValue)
    (h : p.lookup "Delay" = q.lookup "Delay") :
    delayMessages x p = delayMessages x q := by
  unfold delayMessages
  rw [show delayParam = "Delay" from rfl, h]

theorem NewDriver_of_valid_nil (x : Externals) (f : factory) (parameters : GoMap GoValue)
    (hv : (f.ValidateParameters x parameters).1 = true) :
    f.NewDriver x parameters .nil =
      .panicked "interface conversion: interface is nil, not i2c.Bus" := by
  simp [factory.NewDriver, hv]

theorem NewDriver_of_valid_other (x : Externals) (f : factory) (parameters : GoMap GoValue)
    (typeName : String) (hv : (f.ValidateParameters x parameters).1 = true) :
    f.NewDriver x parameters (.other typeName) =
      .panicked ("interface conversion: " ++ typeName ++ " is not i2c.Bus") := by
  simp [factory.NewDriver, hv]

theorem wrapInt64_bounds (n : Int) :
    -9223372036854775808 ≤ wrapInt64 n ∧ wrapInt64 n ≤ 9223372036854775807 := by
  unfold wrapInt64
  have h63 : (2 : Int) ^ 63 = 9223372036854775808 := by norm_num
  have h64 : (2 : Int) ^ 64 = 18446744073709551616 := by norm_num
  rw [h63, h64]
  omega

theorem durationOfMillis_congruent (d : Int) :
    (durationOfMillis d - d * 1000000) % 18446744073709551616 = 0 := by
  unfold durationOfMillis wrapInt64 Millisecond
  have h63 : (2 : Int) ^ 63 = 9223372036854775808 := by norm_num
  have h64 : (2 : Int) ^ 64 = 18446744073709551616 := by norm_num
  rw [h63, h64]
  omega

/-! ## Properties of `ValidateParameters` -/

/-- C1: a configuration whose `Address` is present and coerces to an integer in
`[0, 255]`, and whose `Delay` is absent or coerces to a non-negative integer, validates:
the result is `(true, empty failures map)`, whatever other keys the configuration holds. -/
theorem ValidateParameters_accepts (x : Externals) (f : factory) (parameters : GoMap GoValue)
    (a : GoValue) (v : Int)
    (hA : parameters.lookup "Address" = some a)
    (hconv : x.ConvertToInt a = (v, true)) (hlo : 0 ≤ v) (hhi : v ≤ 255)
    (hD : parameters.lookup "Delay" = none ∨
      ∃ dv d, parameters.lookup "Delay" = some dv ∧ x.ConvertToInt dv = (d, true) ∧ 0 ≤ d) :
    f.ValidateParameters x parameters = (true, GoMap.empty) := by
  have hAm : addressMessages x parameters = [] := by
    rw [addressMessages_of_present x parameters a hA, hconv]
    simp
    omega
  have hDm : delayMessages x parameters = [] := by
    rcases hD with hD | ⟨dv, d, hD, hc, hd⟩
    · exact delayMessages_of_absent x parameters hD
    · rw [delayMessages_of_present x parameters dv hD, hc]
      simp
      omega
  rw [ValidateParameters_eq, hAm, hDm]
  simp [entryFor, GoMap.empty]

theorem ValidateParameters_accepts_witness :
    (config [("Name", .str "probe"), ("Address", .int 99), ("Delay", .str "500")]).lookup
        "Address" = some (.int 99) ∧
      sampleExternals.ConvertToInt (.int 99) = (99, true) ∧
      (Factory sampleExternals).ValidateParameters sampleExternals
        (config [("Name", .str "probe"), ("Address", .int 99), ("Delay", .str "500")]) =
        (true, GoMap.empty) :=
  ⟨by decide, by decide,
    ValidateParameters_accepts sampleExternals (Factory sampleExternals)
      (config [("Name", .str "probe"), ("Address", .int 99), ("Delay", .str "500")])
      (.int 99) 99 (by decide) (by decide) (by decide) (by decide)
      (Or.inr ⟨.str "500", 500, by decide, by decide, by decide⟩)⟩

/-- C2: when the key `Address` is absent, whatever `Delay` and the other keys hold, the
configuration is invalid and the failures map holds under `Address` exactly the one
message "Address is not a required parameter, but was not found.". -/
theorem ValidateParameters_address_absent (x : Externals) (f : factory)
    (parameters : GoMap GoValue) (hA : parameters.lookup "Address" = none) :
    (f.ValidateParameters x parameters).1 = false ∧
      (f.ValidateParameters x parameters).2.lookup "Address" =
        some ["Address is not a required parameter, but was not found."] := by
  have hAm := addressMessages_of_absent x parameters hA
  constructor
  · have h := valid_iff_no_messages x f parameters
    rw [hAm] at h
    cases hv : (f.ValidateParameters x parameters).1
    · rfl
    · exact absurd (h.mp hv).1 (by simp)
  · rw [failures_lookup_address, hAm]
    simp

theorem ValidateParameters_address_absent_witness :
    (config [("Delay", .int 500), ("Unit", .str "pH")]).lookup "Address" = none ∧
      ((Factory sampleExternals).ValidateParameters sampleExternals
          (config [("Delay", .int 500), ("Unit", .str "pH")])).1 = false ∧
      ((Factory sampleExternals).ValidateParameters sampleExternals
          (config [("Delay", .int 500), ("Unit", .str "pH")])).2.lookup "Address" =
        some ["Address is not a required parameter, but was not found."] :=
  ⟨by decide,
    ValidateParameters_address_absent sampleExternals (Factory sampleExternals)
      (config [("Delay", .int 500), ("Unit", .str "pH")]) (by decide)⟩

/-- C3: when the `Address` value coerces successfully to an integer `v`, the message
"Address is out of range. It should be between 0 and 255, but <value> was received." is
recorded under `Address` (as the only message there, with `valid = false`) if and only if
`v < 0` or `v > 255`; for `0 ≤ v ≤ 255`, bounds included, `Address` gets no entry. -/
theorem ValidateParameters_address_range (x : Externals) (f : factory)
    (parameters : GoMap GoValue) (a : GoValue) (v : Int)
    (hA : parameters.lookup "Address" = some a) (hconv : x.ConvertToInt a = (v, true)) :
    (((f.ValidateParameters x parameters).2.lookup "Address" =
          some ["Address is out of range. It should be between 0 and 255, but " ++ a.format ++
            " was received."] ∧
        (f.ValidateParameters x parameters).1 = false) ↔ (v < 0 ∨ v > 255)) ∧
      (("Address is out of range. It should be between 0 and 255, but " ++ a.format ++
          " was received.") ∈ (f.ValidateParameters x parameters).2.get "Address" ↔
        (v < 0 ∨ v > 255)) ∧
      (0 ≤ v ∧ v ≤ 255 → (f.ValidateParameters x parameters).2.lookup "Address" = none) := by
  have hAm := addressMessages_of_present x parameters a hA
  rw [hconv] at hAm
  have hvalid := valid_iff_no_messages x f parameters
  have hlook := failures_lookup_address x f parameters
  by_cases hr : v < 0 ∨ 255 < v
  · have hAm2 : addressMessages x parameters =
        ["Address is out of range. It should be between 0 and 255, but " ++ a.format ++
          " was received."] := by
      rw [hAm]; simp [hr]
    have hinv : (f.ValidateParameters x parameters).1 = false := by
      cases hv : (f.ValidateParameters x parameters).1
      · rfl
      · have := (hvalid.mp hv).1
        rw [hAm2] at this
        exact absurd this (by simp)
    rw [hAm2] at hlook
    simp only [List.cons_ne_nil, if_false] at hlook
    refine ⟨⟨fun _ => hr, fun _ => ⟨hlook, hinv⟩⟩, ⟨fun _ => hr, fun _ => ?_⟩, fun h => ?_⟩
    · simp [GoMap.get, hlook]
    · omega
  · have hAm2 : addressMessages x parameters = [] := by
      rw [hAm]; simp [hr]
    rw [hAm2] at hlook
    simp only [if_true] at hlook
    refine ⟨⟨fun h => ?_, fun h => absurd h hr⟩, ⟨fun h => ?_, fun h => absurd h hr⟩,
      fun _ => hlook⟩
    · rw [hlook] at h
      exact absurd h.1 (by simp)
    · simp [GoMap.get, hlook] at h

theorem ValidateParameters_address_range_witness :
    (config [("Address", .int 300)]).lookup "Address" = some (.int 300) ∧
      sampleExternals.ConvertToInt (.int 300) = (300, true) ∧
      ((300 : Int) < 0 ∨ (300 : Int) > 255) ∧
      ((Factory sampleExternals).ValidateParameters sampleExternals
          (config [("Address", .int 300)])).2.lookup "Address" =
        some ["Address is out of range. It should be between 0 and 255, but 300 was received."] ∧
      ((Factory sampleExternals).ValidateParameters sampleExternals
          (config [("Address", .int 300)])).1 = false :=
  ⟨by decide, by decide, by decide,
    ((ValidateParameters_address_range sampleExternals (Factory sampleExternals)
      (config [("Address", .int 300)]) (.int 300) 300 (by decide) (by decide)).1.mpr
      (by decide))⟩

/-- C4: when `Delay` is absent the failures map has no `Delay` key; when `Delay` is
present and coerces successfully to an integer `d`, the failures map has a `Delay` key if
and only if `d < 0` (so `d = 0` is accepted), and its list is then exactly
"Delay must be positive. <value> was received.". -/
theorem ValidateParameters_delay (x : Externals) (f : factory) (parameters : GoMap GoValue) :
    (parameters.lookup "Delay" = none →
        (f.ValidateParameters x parameters).2.lookup "Delay" = none) ∧
      (∀ (dv : GoValue) (d : Int), parameters.lookup "Delay" = some dv →
        x.ConvertToInt dv = (d, true) →
        (((f.ValidateParameters x parameters).2.lookup "Delay").isSome = true ↔ d < 0) ∧
        (d < 0 → (f.ValidateParameters x parameters).2.lookup "Delay" =
          some ["Delay must be positive. " ++ dv.format ++ " was received."])) := by
  have hlook := failures_lookup_delay x f parameters
  constructor
  · intro hD
    rw [delayMessages_of_absent x parameters hD] at hlook
    simpa using hlook
  · intro dv d hD hconv
    have hDm := delayMessages_of_present x parameters dv hD
    rw [hconv] at hDm
    by_cases hd : d < 0
    · have hDm2 : delayMessages x parameters =
          ["Delay must be positive. " ++ dv.format ++ " was received."] := by
        rw [hDm]; simp [hd]
      rw [hDm2] at hlook
      simp only [List.cons_ne_nil, if_false] at hlook
      exact ⟨⟨fun _ => hd, fun _ => by simp [hlook]⟩, fun _ => hlook⟩
    · have hDm2 : delayMessages x parameters = [] := by
        rw [hDm]; simp [hd]
      rw [hDm2] at hlook
      simp only [if_true] at hlook
      exact ⟨⟨fun h => by simp [hlook] at h, fun h => absurd h hd⟩, fun h => absurd h hd⟩

theorem ValidateParameters_delay_witness :
    ((config [("Address", .int 99), ("Delay", .int (-5))]).lookup "Delay" = some (.int (-5)) ∧
      sampleExternals.ConvertToInt (.int (-5)) = (-5, true) ∧ (-5 : Int) < 0) ∧
      ((Factory sampleExternals).ValidateParameters sampleExternals
          (config [("Address", .int 99), ("Delay", .int (-5))])).2.lookup "Delay" =
        some ["Delay must be positive. -5 was received."] ∧
      ((config [("Address", .int 99)]).lookup "Delay" = none ∧
        ((Factory sampleExternals).ValidateParameters sampleExternals
          (config [("Address", .int 99)])).2.lookup "Delay" = none) ∧
      ((config [("Address", .int 99), ("Delay", .int 0)]).lookup "Delay" = some (.int 0) ∧
        ¬ (((Factory sampleExternals).ValidateParameters sampleExternals
          (config [("Address", .int 99), ("Delay", .int 0)])).2.lookup "Delay").isSome = true) :=
  ⟨⟨by decide, by decide, by decide⟩,
    ((ValidateParameters_delay sampleExternals (Factory sampleExternals)
      (config [("Address", .int 99), ("Delay", .int (-5))])).2 (.int (-5)) (-5)
      (by decide) (by decide)).2 (by decide),
    ⟨by decide, (ValidateParameters_delay sampleExternals (Factory sampleExternals)
      (config [("Address", .int 99)])).1 (by decide)⟩,
    ⟨by decide, fun h => absurd (((ValidateParameters_delay sampleExternals
      (Factory sampleExternals) (config [("Address", .int 99), ("Delay", .int 0)])).2
      (.int 0) 0 (by decide) (by decide)).1.mp h) (by decide)⟩⟩

/-- C5: for every configuration, `valid` is true if and only if the failures map is
empty; every key of the failures map is `Address` or `Delay`; and every entry of the map
holds a non-empty list of messages. -/
theorem ValidateParameters_result_shape (x : Externals) (f : factory)
    (parameters : GoMap GoValue) :
    ((f.ValidateParameters x parameters).1 = true ↔
        (f.ValidateParameters x parameters).2 = GoMap.empty) ∧
      (∀ k ∈ (f.ValidateParameters x parameters).2.keys, k = "Address" ∨ k = "Delay") ∧
      (∀ k msgs, (k, msgs) ∈ (f.ValidateParameters x parameters).2.entries → msgs ≠ []) ∧
      (∀ k msgs, (f.ValidateParameters x parameters).2.lookup k = some msgs → msgs ≠ []) := by
  have hentries : ∀ k msgs, (k, msgs) ∈ (f.ValidateParameters x parameters).2.entries →
      msgs ≠ [] := by
    rw [ValidateParameters_eq]
    intro k msgs h
    by_cases hA : addressMessages x parameters = [] <;>
      by_cases hD : delayMessages x parameters = [] <;>
      simp only [entryFor, hA, hD, if_true, if_false, List.append_nil, List.nil_append,
        List.cons_append, List.mem_cons, Prod.mk.injEq, List.mem_nil_iff, or_false] at h
    · exact h.2 ▸ hD
    · exact h.2 ▸ hA
    · rcases h with h | h
      · exact h.2 ▸ hA
      · exact h.2 ▸ hD
  refine ⟨?_, ?_, hentries, fun k msgs h => hentries k msgs (GoMap.mem_of_lookup _ k msgs h)⟩
  · rw [ValidateParameters_eq]
    by_cases hA : addressMessages x parameters = [] <;>
      by_cases hD : delayMessages x parameters = [] <;>
      simp [entryFor, hA, hD, GoMap.empty]
  · rw [ValidateParameters_eq]
    by_cases hA : addressMessages x parameters = [] <;>
      by_cases hD : delayMessages x parameters = [] <;>
      simp [entryFor, hA, hD, GoMap.keys, addressParam, delayParam]

/-- C6: `ValidateParameters` never short-circuits. The list recorded under `Delay`
depends on the `Delay` entry only: two configurations with the same `Delay` entry get the
same result under `Delay`, whatever their `Address` entries are (missing and invalid ones
included); symmetrically for `Address`. Whenever the `Address` entry fails a check
(absent, not coercible, or out of range) and the `Delay` entry fails a check (not
coercible, or negative), the failures map contains both keys. -/
theorem ValidateParameters_no_short_circuit (x : Externals) (f : factory)
    (p q : GoMap GoValue) :
    (p.lookup "Delay" = q.lookup "Delay" →
        (f.ValidateParameters x p).2.lookup "Delay" =
          (f.ValidateParameters x q).2.lookup "Delay") ∧
      (p.lookup "Address" = q.lookup "Address" →
        (f.ValidateParameters x p).2.lookup "Address" =
          (f.ValidateParameters x q).2.lookup "Address") ∧
      ((p.lookup "Address" = none ∨
          ∃ a, p.lookup "Address" = some a ∧
            ((x.ConvertToInt a).2 = false ∨ (x.ConvertToInt a).1 < 0 ∨
              (x.ConvertToInt a).1 > 255)) →
        (∃ d, p.lookup "Delay" = some d ∧
          ((x.ConvertToInt d).2 = false ∨ (x.ConvertToInt d).1 < 0)) →
        ((f.ValidateParameters x p).2.lookup "Address").isSome = true ∧
          ((f.ValidateParameters x p).2.lookup "Delay").isSome = true) := by
  refine ⟨fun h => ?_, fun h => ?_, fun hA hD => ?_⟩
  · have hm : delayMessages x p = delayMessages x q := by
      unfold delayMessages
      rw [show delayParam = "Delay" from rfl, h]
    rw [failures_lookup_delay, failures_lookup_delay, hm]
  · have hm : addressMessages x p = addressMessages x q := by
      unfold addressMessages
      rw [show addressParam = "Address" from rfl, h]
    rw [failures_lookup_address, failures_lookup_address, hm]
  · have hAm : addressMessages x p ≠ [] := by
      rcases hA with hA | ⟨a, hA, hbad⟩
      · rw [addressMessages_of_absent x p hA]; simp
      · rw [addressMessages_of_present x p a hA]
        rcases hbad with hb | hb | hb
        · simp [hb]
        · simp [hb]
        · have hb2 : 255 < (x.ConvertToInt a).1 := hb
          simp [hb2]
    have hDm : delayMessages x p ≠ [] := by
      rcases hD with ⟨d, hD, hbad⟩
      rw [delayMessages_of_present x p d hD]
      rcases hbad with hb | hb
      · simp [hb]
      · simp [hb]
    rw [failures_lookup_address, failures_lookup_delay]
    simp [hAm, hDm]

theorem ValidateParameters_no_short_circuit_witness :
    ((config [("Address", .str "x7"), ("Delay", .int (-1))]).lookup "Delay" =
        (config [("Delay", .int (-1))]).lookup "Delay" ∧
      ((Factory sampleExternals).ValidateParameters sampleExternals
          (config [("Address", .str "x7"), ("Delay", .int (-1))])).2.lookup "Delay" =
        ((Factory sampleExternals).ValidateParameters sampleExternals
          (config [("Delay", .int (-1))])).2.lookup "Delay") ∧
      (((Factory sampleExternals).ValidateParameters sampleExternals
          (config [("Address", .str "x7"), ("Delay", .int (-1))])).2.lookup "Address").isSome =
        true ∧
      (((Factory sampleExternals).ValidateParameters sampleExternals
          (config [("Address", .str "x7"), ("Delay", .int (-1))])).2.lookup "Delay").isSome =
        true :=
  ⟨⟨by decide, (ValidateParameters_no_short_circuit sampleExternals (Factory sampleExternals)
      (config [("Address", .str "x7"), ("Delay", .int (-1))])
      (config [("Delay", .int (-1))])).1 (by decide)⟩,
    (ValidateParameters_no_short_circuit sampleExternals (Factory sampleExternals)
      (config [("Address", .str "x7"), ("Delay", .int (-1))])
      (config [("Delay", .int (-1))])).2.2
      (Or.inr ⟨.str "x7", by decide, Or.inl (by decide)⟩)
      ⟨.int (-1), by decide, Or.inr (by decide)⟩⟩

/-! ## Properties of `NewDriver` -/

/-- C7: `NewDriver` succeeds only on validated input. For a configuration that
`ValidateParameters` rejects and any hardware resource (a bus or not), it returns no driver
and the error `errors.New(hal.ToErrorString(failures))`, without panicking on the resource;
for a configuration that `ValidateParameters` accepts and a bus handle, it returns a driver
and a nil error; and a returned driver implies that validation passed. -/
theorem NewDriver_only_on_validated (x : Externals) (f : factory) (parameters : GoMap GoValue) :
    (∀ hw : HardwareResource, (f.ValidateParameters x parameters).1 = false →
        f.NewDriver x parameters hw =
          .returned (none, some ⟨x.ToErrorString (f.ValidateParameters x parameters).2⟩)) ∧
      (∀ b : Bus, (f.ValidateParameters x parameters).1 = true →
        ∃ drv, f.NewDriver x parameters (.bus b) = .returned (some drv, none)) ∧
      (∀ (hw : HardwareResource) (drv : AtlasEZO) (e : Option GoError),
        f.NewDriver x parameters hw = .returned (some drv, e) →
        (f.ValidateParameters x parameters).1 = true) := by
  refine ⟨fun hw hv => NewDriver_of_invalid x f parameters hw hv,
    fun b hv => ⟨_, NewDriver_of_valid_bus x f parameters b hv⟩, fun hw drv e h => ?_⟩
  cases hv : (f.ValidateParameters x parameters).1
  · rw [NewDriver_of_invalid x f parameters hw hv] at h
    simp at h
  · rfl

theorem NewDriver_only_on_validated_witness :
    (((Factory sampleExternals).ValidateParameters sampleExternals
          (config [("Address", .str "not-a-number")])).1 = false ∧
      (Factory sampleExternals).NewDriver sampleExternals
          (config [("Address", .str "not-a-number")]) (.other "gpio.Pin") =
        .returned (none, some ⟨sampleExternals.ToErrorString
          ((Factory sampleExternals).ValidateParameters sampleExternals
            (config [("Address", .str "not-a-number")])).2⟩)) ∧
      (((Factory sampleExternals).ValidateParameters sampleExternals
          (config [("Address", .int 300)])).1 = false ∧
      (Factory sampleExternals).NewDriver sampleExternals
          (config [("Address", .int 300)]) (.bus ⟨1⟩) =
        .returned (none, some ⟨sampleExternals.ToErrorString
          ((Factory sampleExternals).ValidateParameters sampleExternals
            (config [("Address", .int 300)])).2⟩)) ∧
      sampleExternals.ToErrorString
          ((Factory sampleExternals).ValidateParameters sampleExternals
            (config [("Address", .str "not-a-number")])).2 =
        "Address: Address is not an integer. not-a-number was received." :=
  ⟨⟨by decide, (NewDriver_only_on_validated sampleExternals (Factory sampleExternals)
      (config [("Address", .str "not-a-number")])).1 (.other "gpio.Pin") (by decide)⟩,
    ⟨by decide, (NewDriver_only_on_validated sampleExternals (Factory sampleExternals)
      (config [("Address", .int 300)])).1 (.bus ⟨1⟩) (by decide)⟩,
    by decide⟩

/-- C8: address narrowing is lossless. For a configuration that passes
`ValidateParameters` and a bus handle, the `Address` entry is present, its coercion
succeeds with a value in `[0, 255]`, and the `byte` address stored in the returned driver
equals that coerced integer. -/
theorem NewDriver_address_lossless (x : Externals) (f : factory) (parameters : GoMap GoValue)
    (b : Bus) (hv : (f.ValidateParameters x parameters).1 = true) :
    ∃ a drv, parameters.lookup "Address" = some a ∧ (x.ConvertToInt a).2 = true ∧
      f.NewDriver x parameters (.bus b) = .returned (some drv, none) ∧
      (drv.addr : Int) = (x.ConvertToInt a).1 := by
  obtain ⟨⟨a, ha, hok, hlo, hhi⟩, _⟩ := entries_of_valid x f parameters hv
  refine ⟨a, _, ha, hok, NewDriver_of_valid_bus x f parameters b hv, ?_⟩
  simp only [ha, Option.getD_some, toByte]
  rw [Int.emod_eq_of_lt hlo (by omega)]
  exact Int.toNat_of_nonneg hlo

theorem NewDriver_address_lossless_witness :
    ((Factory sampleExternals).ValidateParameters sampleExternals
        (config [("Address", .int 99), ("Delay", .int 500)])).1 = true ∧
      (∃ a drv, (config [("Address", .int 99), ("Delay", .int 500)]).lookup "Address" = some a ∧
        (sampleExternals.ConvertToInt a).2 = true ∧
        (Factory sampleExternals).NewDriver sampleExternals
          (config [("Address", .int 99), ("Delay", .int 500)]) (.bus ⟨1⟩) =
          .returned (some drv, none) ∧
        (drv.addr : Int) = (sampleExternals.ConvertToInt a).1) ∧
      (Factory sampleExternals).NewDriver sampleExternals
          (config [("Address", .int 99), ("Delay", .int 500)]) (.bus ⟨1⟩) =
        .returned
          (some
            { addr := 99
              bus := ⟨1⟩
              delay := 500000000
              meta :=
                { Name := "ezo"
                  Description := "Atlas Scientific EZO board for pH sensor"
                  Capabilities := [Capability.AnalogInput] } },
           none) :=
  ⟨by decide,
    NewDriver_address_lossless sampleExternals (Factory sampleExternals)
      (config [("Address", .int 99), ("Delay", .int 500)]) ⟨1⟩ (by decide),
    by decide⟩

/-- C9, as stated, fails: the configuration `{Address: 99, Delay: 9223372036855}` passes
`ValidateParameters`, yet the wait duration of the driver that `NewDriver` returns is
`-9223372036854551616` nanoseconds, not `9223372036855 * 1000000`: the `int64` product
`time.Duration(delay) * time.Millisecond` has wrapped. -/
theorem NewDriver_delay_wraps :
    ((Factory sampleExternals).ValidateParameters sampleExternals
        (config [("Address", .int 99), ("Delay", .int 9223372036855)])).1 = true ∧
      sampleExternals.ConvertToInt (.int 9223372036855) = (9223372036855, true) ∧
      (Factory sampleExternals).NewDriver sampleExternals
          (config [("Address", .int 99), ("Delay", .int 9223372036855)]) (.bus ⟨1⟩) =
        .returned
          (some
            { addr := 99
              bus := ⟨1⟩
              delay := -9223372036854551616
              meta :=
                { Name := "ezo"
                  Description := "Atlas Scientific EZO board for pH sensor"
                  Capabilities := [Capability.AnalogInput] } },
           none) ∧
      (-9223372036854551616 : Int) ≠ 9223372036855 * 1000000 := by
  decide

/-- C9, amended: for a configuration that passes `ValidateParameters` and a bus handle,
when the coerced `Delay` entry (if the key is present) is at most `9223372036854`, the
wait duration of the returned driver is `d * 1000000` nanoseconds, that is `d`
milliseconds, where `d` is the coerced `Delay` entry when the key is present and `1600`
otherwise; `1600` is also the `Default` of the `Delay` entry of `GetParameters`. -/
theorem NewDriver_delay_duration (x : Externals) (f : factory) (parameters : GoMap GoValue)
    (b : Bus) (hv : (f.ValidateParameters x parameters).1 = true)
    (hbound :
      (match parameters.lookup "Delay" with
        | some d => (x.ConvertToInt d).1
        | none => 1600) ≤ 9223372036854) :
    (∃ drv, f.NewDriver x parameters (.bus b) = .returned (some drv, none) ∧
        drv.delay =
          (match parameters.lookup "Delay" with
            | some d => (x.ConvertToInt d).1
            | none => 1600) * 1000000) ∧
      (∃ c ∈ (Factory x).GetParameters, c.Name = "Delay" ∧ c.Default = .int 1600) := by
  constructor
  · refine ⟨_, NewDriver_of_valid_bus x f parameters b hv, ?_⟩
    obtain ⟨_, hD⟩ := entries_of_valid x f parameters hv
    rcases hl : parameters.lookup "Delay" with _ | d
    · exact durationOfMillis_of_bounded 1600 (by omega) (by omega)
    · rw [hl] at hbound
      exact durationOfMillis_of_bounded _ (hD d hl).2 hbound
  · exact ⟨_, List.mem_cons_of_mem _ (List.mem_singleton.mpr rfl), rfl, rfl⟩

theorem NewDriver_delay_duration_witness :
    (((Factory sampleExternals).ValidateParameters sampleExternals
          (config [("Address", .int 99), ("Delay", .int 500)])).1 = true ∧
      (match (config [("Address", .int 99), ("Delay", .int 500)]).lookup "Delay" with
        | some d => (sampleExternals.ConvertToInt d).1
        | none => 1600) ≤ 9223372036854 ∧
      ((∃ drv, (Factory sampleExternals).NewDriver sampleExternals
            (config [("Address", .int 99), ("Delay", .int 500)]) (.bus ⟨1⟩) =
            .returned (some drv, none) ∧
          drv.delay =
            (match (config [("Address", .int 99), ("Delay", .int 500)]).lookup "Delay" with
              | some d => (sampleExternals.ConvertToInt d).1
              | none => 1600) * 1000000) ∧
        (∃ c ∈ (Factory sampleExternals).GetParameters,
          c.Name = "Delay" ∧ c.Default = .int 1600))) ∧
      (∃ drv, (Factory sampleExternals).NewDriver sampleExternals
          (config [("Address", .int 99), ("Delay", .int 500)]) (.bus ⟨1⟩) =
          .returned (some drv, none) ∧ drv.delay = 500 * 1000000) ∧
      (∃ drv, (Factory sampleExternals).NewDriver sampleExternals
          (config [("Address", .int 99)]) (.bus ⟨1⟩) =
          .returned (some drv, none) ∧ drv.delay = 1600 * 1000000) :=
  ⟨⟨by decide, by decide,
      NewDriver_delay_duration sampleExternals (Factory sampleExternals)
        (config [("Address", .int 99), ("Delay", .int 500)]) ⟨1⟩ (by decide) (by decide)⟩,
    ⟨_, rfl, by decide⟩, ⟨_, rfl, by decide⟩⟩

/-! ## The parameter schema -/

/-- C10: `GetParameters` of the factory returned by `Factory()` is exactly the two-entry
sequence `Address` (Integer, order 0, default 68), `Delay` (Integer, order 1, default
1600); the names are distinct, the orders strictly increase along the sequence, and the
defaults pass the checks of `ValidateParameters`: for any coercion that gives a native
integer back as itself, the configuration made of the two defaults is valid. -/
theorem GetParameters_schema (x : Externals) :
    (Factory x).GetParameters =
        [ { Name := "Address", Type_ := ConfigParameterType.Integer, Order := 0,
            Default := GoValue.int 68 },
          { Name := "Delay", Type_ := ConfigParameterType.Integer, Order := 1,
            Default := GoValue.int 1600 } ] ∧
      ((Factory x).GetParameters.map (fun c => c.Name)).Nodup ∧
      ((Factory x).GetParameters.map (fun c => c.Order)).Pairwise (fun m n => m < n) ∧
      (x.ConvertToInt (.int 68) = (68, true) → x.ConvertToInt (.int 1600) = (1600, true) →
        (Factory x).ValidateParameters x
            (config ((Factory x).GetParameters.map (fun c => (c.Name, c.Default)))) =
          (true, GoMap.empty)) := by
  refine ⟨rfl, ?_, ?_, fun h68 h1600 => ?_⟩
  · show (["Address", "Delay"] : List String).Nodup
    decide
  · show ([0, 1] : List Int).Pairwise (fun m n => m < n)
    decide
  · have hcfg : config ((Factory x).GetParameters.map (fun c => (c.Name, c.Default))) =
        config [("Address", .int 68), ("Delay", .int 1600)] := rfl
    have hAm : addressMessages x (config [("Address", .int 68), ("Delay", .int 1600)]) = [] := by
      rw [addressMessages_of_present x _ (.int 68) (by decide), h68]
      simp
    have hDm : delayMessages x (config [("Address", .int 68), ("Delay", .int 1600)]) = [] := by
      rw [delayMessages_of_present x _ (.int 1600) (by decide), h1600]
      simp
    rw [hcfg, ValidateParameters_eq, hAm, hDm]
    simp [entryFor, GoMap.empty]

theorem GetParameters_schema_witness :
    (sampleExternals.ConvertToInt (.int 68) = (68, true) ∧
      sampleExternals.ConvertToInt (.int 1600) = (1600, true)) ∧
      (Factory sampleExternals).ValidateParameters sampleExternals
          (config ((Factory sampleExternals).GetParameters.map (fun c => (c.Name, c.Default)))) =
        (true, GoMap.empty) :=
  ⟨⟨by decide, by decide⟩,
    (GetParameters_schema sampleExternals).2.2.2 (by decide) (by decide)⟩

/-! ## Panics, purity and metadata -/

/-- C12, as stated, fails: the configuration `{Address: 99}` passes `ValidateParameters`,
and `NewDriver` called with it and a hardware resource that does not implement `i2c.Bus`
(or with the nil interface) panics in the type assertion `hardwareResources.(i2c.Bus)`
instead of returning a driver or an error. -/
theorem NewDriver_panics_without_bus :
    ((Factory sampleExternals).ValidateParameters sampleExternals
        (config [("Address", .int 99)])).1 = true ∧
      (Factory sampleExternals).NewDriver sampleExternals (config [("Address", .int 99)])
          (.other "gpio.Pin") =
        .panicked "interface conversion: gpio.Pin is not i2c.Bus" ∧
      (Factory sampleExternals).NewDriver sampleExternals (config [("Address", .int 99)])
          .nil =
        .panicked "interface conversion: interface is nil, not i2c.Bus" ∧
      ¬ ∃ res, (Factory sampleExternals).NewDriver sampleExternals
          (config [("Address", .int 99)]) (.other "gpio.Pin") = .returned res := by
  refine ⟨by decide, by decide, by decide, ?_⟩
  rintro ⟨res, h⟩
  have hp : (Factory sampleExternals).NewDriver sampleExternals
      (config [("Address", .int 99)]) (.other "gpio.Pin") =
      .panicked "interface conversion: gpio.Pin is not i2c.Bus" := by decide
  rw [hp] at h
  exact Outcome.noConfusion h

/-- C12, amended: `NewDriver` returns, with exactly one of a driver and an error, whenever
the hardware resource implements `i2c.Bus`; it returns an error, whatever the hardware
resource is, whenever the configuration fails validation; it panics exactly when the
configuration passes validation and the hardware resource is not a bus; and
`ValidateParameters` returns for every raw configuration. -/
theorem NewDriver_returns_on_bus_or_invalid (x : Externals) (f : factory)
    (parameters : GoMap GoValue) :
    (∀ b : Bus, ∃ res, f.NewDriver x parameters (.bus b) = .returned res ∧
        (res.1.isSome = true ↔ res.2 = none)) ∧
      (∀ hw : HardwareResource, (f.ValidateParameters x parameters).1 = false →
        ∃ e, f.NewDriver x parameters hw = .returned (none, some e)) ∧
      (∀ hw : HardwareResource, (∃ reason, f.NewDriver x parameters hw = .panicked reason) ↔
        ((f.ValidateParameters x parameters).1 = true ∧ ∀ b : Bus, hw ≠ .bus b)) ∧
      (∃ valid failures, f.ValidateParameters x parameters = (valid, failures)) := by
  refine ⟨fun b => ?_, fun hw hv => ⟨_, NewDriver_of_invalid x f parameters hw hv⟩,
    fun hw => ?_, ⟨_, _, rfl⟩⟩
  · cases hv : (f.ValidateParameters x parameters).1
    · exact ⟨_, NewDriver_of_invalid x f parameters (.bus b) hv, by simp⟩
    · exact ⟨_, NewDriver_of_valid_bus x f parameters b hv, by simp⟩
  · cases hv : (f.ValidateParameters x parameters).1
    · rw [NewDriver_of_invalid x f parameters hw hv]
      simp
    · cases hw with
      | nil =>
        rw [NewDriver_of_valid_nil x f parameters hv]
        simp
      | bus b =>
        rw [NewDriver_of_valid_bus x f parameters b hv]
        simp
      | other typeName =>
        rw [NewDriver_of_valid_other x f parameters typeName hv]
        simp

theorem NewDriver_returns_on_bus_or_invalid_witness :
    (((Factory sampleExternals).ValidateParameters sampleExternals
          (config [("Delay", .int (-7))])).1 = false ∧
      ∃ e, (Factory sampleExternals).NewDriver sampleExternals
          (config [("Delay", .int (-7))]) (.other "gpio.Pin") = .returned (none, some e)) ∧
      (∃ res, (Factory sampleExternals).NewDriver sampleExternals
          (config [("Address", .int 99)]) (.bus ⟨1⟩) = .returned res ∧
        (res.1.isSome = true ↔ res.2 = none)) :=
  ⟨⟨by decide, (NewDriver_returns_on_bus_or_invalid sampleExternals (Factory sampleExternals)
      (config [("Delay", .int (-7))])).2.1 (.other "gpio.Pin") (by decide)⟩,
    (NewDriver_returns_on_bus_or_invalid sampleExternals (Factory sampleExternals)
      (config [("Address", .int 99)])).1 ⟨1⟩⟩

/-- C13: `ValidateParameters` is a function of the lookups of `Address` and `Delay`
only. Two raw configurations that agree on the lookup of each of the two keys (presence
and value) get identical `(valid, failures)` results, whatever their other keys are and
whatever factory value is the receiver. The embedding has no state besides its arguments:
the source only reads `parameters`, so a second call on the same input is the same
computation. -/
theorem ValidateParameters_depends_on_lookups (x : Externals) (f g : factory)
    (p q : GoMap GoValue) (hA : p.lookup "Address" = q.lookup "Address")
    (hD : p.lookup "Delay" = q.lookup "Delay") :
    f.ValidateParameters x p = g.ValidateParameters x q := by
  rw [ValidateParameters_eq x f p, ValidateParameters_eq x g q,
    addressMessages_congr x p q hA, delayMessages_congr x p q hD]

theorem ValidateParameters_depends_on_lookups_witness :
    (config [("Address", .int 300), ("Delay", .str "soon")]).lookup "Address" =
        (config [("Unit", .str "pH"), ("Delay", .str "soon"), ("Address", .int 300),
          ("Port", .int 3)]).lookup "Address" ∧
      (config [("Address", .int 300), ("Delay", .str "soon")]).lookup "Delay" =
        (config [("Unit", .str "pH"), ("Delay", .str "soon"), ("Address", .int 300),
          ("Port", .int 3)]).lookup "Delay" ∧
      (Factory sampleExternals).ValidateParameters sampleExternals
          (config [("Address", .int 300), ("Delay", .str "soon")]) =
        (Factory negativeFallbackExternals).ValidateParameters sampleExternals
          (config [("Unit", .str "pH"), ("Delay", .str "soon"), ("Address", .int 300),
            ("Port", .int 3)]) :=
  ⟨by decide, by decide,
    ValidateParameters_depends_on_lookups sampleExternals (Factory sampleExternals)
      (Factory negativeFallbackExternals)
      (config [("Address", .int 300), ("Delay", .str "soon")])
      (config [("Unit", .str "pH"), ("Delay", .str "soon"), ("Address", .int 300),
        ("Port", .int 3)]) (by decide) (by decide)⟩

/-- C14: for every successful `NewDriver` call, the metadata attached to the returned
driver equals the record returned by `Factory().Metadata()` field for field (name,
description, capability list), and that record declares exactly one capability, analog
input. -/
theorem NewDriver_metadata (x : Externals) (f : factory) (parameters : GoMap GoValue)
    (hw : HardwareResource) (drv : AtlasEZO) (e : Option GoError)
    (h : f.NewDriver x parameters hw = .returned (some drv, e)) :
    drv.meta.Name = (Factory x).Metadata.Name ∧
      drv.meta.Description = (Factory x).Metadata.Description ∧
      drv.meta.Capabilities = (Factory x).Metadata.Capabilities ∧
      (Factory x).Metadata.Capabilities = [Capability.AnalogInput] := by
  cases hv : (f.ValidateParameters x parameters).1
  · rw [NewDriver_of_invalid x f parameters hw hv] at h
    simp at h
  · cases hw with
    | nil =>
      rw [NewDriver_of_valid_nil x f parameters hv] at h
      exact Outcome.noConfusion h
    | other typeName =>
      rw [NewDriver_of_valid_other x f parameters typeName hv] at h
      exact Outcome.noConfusion h
    | bus b =>
      rw [NewDriver_of_valid_bus x f parameters b hv] at h
      have hd := (Prod.mk.inj (Outcome.returned.inj h)).1
      have hd2 := Option.some.inj hd
      subst hd2
      exact ⟨rfl, rfl, rfl, rfl⟩

theorem NewDriver_metadata_witness :
    (Factory sampleExternals).NewDriver sampleExternals
        (config [("Address", .int 99), ("Delay", .int 500)]) (.bus ⟨4⟩) =
        .returned
          (some
            { addr := 99
              bus := ⟨4⟩
              delay := 500000000
              meta :=
                { Name := "ezo"
                  Description := "Atlas Scientific EZO board for pH sensor"
                  Capabilities := [Capability.AnalogInput] } },
           none) ∧
      ("ezo" = (Factory sampleExternals).Metadata.Name ∧
        "Atlas Scientific EZO board for pH sensor" =
          (Factory sampleExternals).Metadata.Description ∧
        [Capability.AnalogInput] = (Factory sampleExternals).Metadata.Capabilities ∧
        (Factory sampleExternals).Metadata.Capabilities = [Capability.AnalogInput]) :=
  ⟨by decide,
    NewDriver_metadata sampleExternals (Factory sampleExternals)
      (config [("Address", .int 99), ("Delay", .int 500)]) (.bus ⟨4⟩)
      { addr := 99
        bus := ⟨4⟩
        delay := 500000000
        meta :=
          { Name := "ezo"
            Description := "Atlas Scientific EZO board for pH sensor"
            Capabilities := [Capability.AnalogInput] } }
      none (by decide)⟩

/-! ## Coercion failure and the range of the delay -/

/-- C16: on coercion failure the second check still runs, on the fallback value of the
coercion. When the `Address` value fails `hal.ConvertToInt` with fallback `v`, the list
under `Address` is the not-an-integer message, followed by the out-of-range message if
and only if `v < 0` or `v > 255`; when the `Delay` value fails with fallback `v`, the list
under `Delay` is the not-an-integer message, followed by the must-be-positive message if
and only if `v < 0`. In both cases the not-an-integer message is first and `valid` is
false. -/
theorem ValidateParameters_coercion_failure (x : Externals) (f : factory)
    (parameters : GoMap GoValue) :
    (∀ (a : GoValue) (v : Int), parameters.lookup "Address" = some a →
        x.ConvertToInt a = (v, false) →
        (f.ValidateParameters x parameters).2.lookup "Address" =
            some (("Address is not an integer. " ++ a.format ++ " was received.") ::
              (if v < 0 ∨ v > 255 then
                ["Address is out of range. It should be between 0 and 255, but " ++ a.format ++
                  " was received."]
              else [])) ∧
          (f.ValidateParameters x parameters).1 = false) ∧
      (∀ (d : GoValue) (v : Int), parameters.lookup "Delay" = some d →
        x.ConvertToInt d = (v, false) →
        (f.ValidateParameters x parameters).2.lookup "Delay" =
            some (("Delay is not an integer. " ++ d.format ++ " was received.") ::
              (if v < 0 then ["Delay must be positive. " ++ d.format ++ " was received."]
              else [])) ∧
          (f.ValidateParameters x parameters).1 = false) := by
  have hvalid := valid_iff_no_messages x f parameters
  constructor
  · intro a v hA hconv
    have hAm := addressMessages_of_present x parameters a hA
    rw [hconv] at hAm
    simp only [Bool.false_eq_true, if_false, List.singleton_append] at hAm
    have hne : addressMessages x parameters ≠ [] := by rw [hAm]; simp
    constructor
    · rw [failures_lookup_address, if_neg hne, hAm]
    · cases hv : (f.ValidateParameters x parameters).1
      · rfl
      · exact absurd (hvalid.mp hv).1 hne
  · intro d v hD hconv
    have hDm := delayMessages_of_present x parameters d hD
    rw [hconv] at hDm
    simp only [Bool.false_eq_true, if_false, List.singleton_append] at hDm
    have hne : delayMessages x parameters ≠ [] := by rw [hDm]; simp
    constructor
    · rw [failures_lookup_delay, if_neg hne, hDm]
    · cases hv : (f.ValidateParameters x parameters).1
      · rfl
      · exact absurd (hvalid.mp hv).2 hne

theorem ValidateParameters_coercion_failure_witness :
    ((config [("Address", .str "0x44"), ("Delay", .str "soon")]).lookup "Address" =
        some (.str "0x44") ∧
      sampleExternals.ConvertToInt (.str "0x44") = (0, false) ∧
      ((Factory sampleExternals).ValidateParameters sampleExternals
          (config [("Address", .str "0x44"), ("Delay", .str "soon")])).2.lookup "Address" =
        some ["Address is not an integer. 0x44 was received."]) ∧
      ((config [("Address", .str "0x44"), ("Delay", .str "soon")]).lookup "Delay" =
          some (.str "soon") ∧
        negativeFallbackExternals.ConvertToInt (.str "soon") = (-1, false) ∧
        ((Factory negativeFallbackExternals).ValidateParameters negativeFallbackExternals
            (config [("Address", .str "0x44"), ("Delay", .str "soon")])).2.lookup "Delay" =
          some ["Delay is not an integer. soon was received.",
            "Delay must be positive. soon was received."]) :=
  ⟨⟨by decide, by decide,
      ((ValidateParameters_coercion_failure sampleExternals (Factory sampleExternals)
        (config [("Address", .str "0x44"), ("Delay", .str "soon")])).1 (.str "0x44") 0
        (by decide) (by decide)).1.trans (by decide)⟩,
    ⟨by decide, by decide,
      ((ValidateParameters_coercion_failure negativeFallbackExternals
        (Factory negativeFallbackExternals)
        (config [("Address", .str "0x44"), ("Delay", .str "soon")])).2 (.str "soon") (-1)
        (by decide) (by decide)).1.trans (by decide)⟩⟩

/-- C17: the millisecond-to-duration conversion of `NewDriver` does not overflow on
bounded delays. For a configuration that passes `ValidateParameters`, whose `Delay` entry
coerces to `d`, and a bus handle, `NewDriver` returns a driver whose wait duration is
congruent to `d * 1000000` modulo `2 ^ 64` and lies in the `int64` range; when
`0 ≤ d ≤ 9223372036854` it equals `d * 1000000` exactly and is non-negative; when
`d > 9223372036854` it differs from `d * 1000000`, although the configuration was
accepted. -/
theorem NewDriver_delay_overflow_bound (x : Externals) (f : factory)
    (parameters : GoMap GoValue) (b : Bus) (dv : GoValue) (d : Int)
    (hv : (f.ValidateParameters x parameters).1 = true)
    (hD : parameters.lookup "Delay" = some dv) (hconv : (x.ConvertToInt dv).1 = d) :
    ∃ drv, f.NewDriver x parameters (.bus b) = .returned (some drv, none) ∧
      (drv.delay - d * 1000000) % 18446744073709551616 = 0 ∧
      (-9223372036854775808 ≤ drv.delay ∧ drv.delay ≤ 9223372036854775807) ∧
      (0 ≤ d ∧ d ≤ 9223372036854 → drv.delay = d * 1000000 ∧ 0 ≤ drv.delay) ∧
      (9223372036854 < d → drv.delay ≠ d * 1000000) := by
  refine ⟨_, NewDriver_of_valid_bus x f parameters b hv, ?_⟩
  simp only [hD, hconv]
  refine ⟨durationOfMillis_congruent d, ?_, fun hb => ?_, fun hb => ?_⟩
  · unfold durationOfMillis
    exact wrapInt64_bounds _
  · rw [durationOfMillis_of_bounded d hb.1 hb.2]
    exact ⟨rfl, by omega⟩
  · have hr : durationOfMillis d ≤ 9223372036854775807 := by
      unfold durationOfMillis
      exact (wrapInt64_bounds _).2
    omega

theorem NewDriver_delay_overflow_bound_witness :
    (((Factory sampleExternals).ValidateParameters sampleExternals
          (config [("Address", .int 68), ("Delay", .int 9223372036854)])).1 = true ∧
      (config [("Address", .int 68), ("Delay", .int 9223372036854)]).lookup "Delay" =
        some (.int 9223372036854) ∧
      (sampleExternals.ConvertToInt (.int 9223372036854)).1 = 9223372036854 ∧
      ∃ drv, (Factory sampleExternals).NewDriver sampleExternals
          (config [("Address", .int 68), ("Delay", .int 9223372036854)]) (.bus ⟨2⟩) =
          .returned (some drv, none) ∧
        (drv.delay - 9223372036854 * 1000000) % 18446744073709551616 = 0 ∧
        (-9223372036854775808 ≤ drv.delay ∧ drv.delay ≤ 9223372036854775807) ∧
        (0 ≤ (9223372036854 : Int) ∧ (9223372036854 : Int) ≤ 9223372036854 →
          drv.delay = 9223372036854 * 1000000 ∧ 0 ≤ drv.delay) ∧
        ((9223372036854 : Int) < 9223372036854 → drv.delay ≠ 9223372036854 * 1000000)) ∧
      (((Factory sampleExternals).ValidateParameters sampleExternals
          (config [("Address", .int 68), ("Delay", .int 9223372036855)])).1 = true ∧
        ∃ drv, (Factory sampleExternals).NewDriver sampleExternals
            (config [("Address", .int 68), ("Delay", .int 9223372036855)]) (.bus ⟨2⟩) =
            .returned (some drv, none) ∧
          drv.delay = 9223372036855 * 1000000 - 18446744073709551616) :=
  ⟨⟨by decide, by decide, by decide,
      NewDriver_delay_overflow_bound sampleExternals (Factory sampleExternals)
        (config [("Address", .int 68), ("Delay", .int 9223372036854)]) ⟨2⟩
        (.int 9223372036854) 9223372036854 (by decide) (by decide) (by decide)⟩,
    ⟨by decide, ⟨_, rfl, by decide⟩⟩⟩

end Ezo
